import Mathlib

/-!
Shallow embedding of the excel-cleaner analysis engine
(src/src/utils/excelAnalyzer.ts, largest revision) in Lean 4.

The workbook codec (the xlsx container format) is external; a decoded
workbook is modelled as named sheets holding an address-keyed sparse cell
map, the decoded bounding range (`!ref`) and the merge list (`!merges`).
JavaScript strings are modelled as Lean strings (all inputs used in
witnesses are ASCII, where the two agree); JavaScript regular expressions
used by the analyzer are alternations of literals and small fixed shapes,
embedded as explicit matchers, including the `lastIndex` statefulness of
`g`-flagged regexes used with `RegExp.prototype.test`.
-/

namespace ExcelCleaner

/-- A JavaScript cell value (`cell.v`): the analyzer only ever calls
`toString()` on it and tests its truthiness.  Numbers are modelled as
integers (the witnesses use none of the float-only behaviours). -/
inductive JVal where
  | jstr (s : String)
  | jnum (n : Int)
deriving DecidableEq, Repr

/-- JavaScript truthiness of a cell value: `''` and `0` are falsy. -/
def JVal.truthy : JVal → Bool
  | .jstr s => s ≠ ""
  | .jnum n => n ≠ 0

/-- `cell.v?.toString() || ''` : empty string when absent. -/
def jsToStr : Option JVal → String
  | none => ""
  | some (.jstr s) => s
  | some (.jnum n) => toString n

/-- A worksheet cell object: cached value `v`, formula `f`, type tag `t`
(for example 'e' = error, 's' = string, 'n' = number), formatted text `w`. -/
structure Cell where
  v : Option JVal := none
  f : Option String := none
  t : Option Char := none
  w : Option String := none
deriving DecidableEq, Repr

/-- A decoded `XLSX.Range` (`{s:{r,c}, e:{r,c}}`), 0-based inclusive. -/
structure CellRange where
  sr : Nat
  sc : Nat
  er : Nat
  ec : Nat
deriving DecidableEq, Repr

/-- One worksheet: sparse cells keyed by "A1"-style address, the decoded
bounding range (`decode_range(worksheet['!ref'] || 'A1')`, where the
default decodes to the single cell at the origin), and the merge list. -/
structure Sheet where
  cells : List (String × Cell) := []
  refRange : Option CellRange := none
  merges : List CellRange := []
deriving DecidableEq, Repr

/-- `worksheet[addr]` : first binding wins, as in a JS object. -/
def Sheet.cell? (ws : Sheet) (addr : String) : Option Cell :=
  (ws.cells.find? (fun p => p.1 = addr)).map Prod.snd

/-- The bounding range actually used by the analyzer. -/
def Sheet.range (ws : Sheet) : CellRange :=
  ws.refRange.getD ⟨0, 0, 0, 0⟩

/-- A decoded workbook: `workbook.SheetNames` and `workbook.Sheets`. -/
structure Workbook where
  sheetNames : List String := []
  sheets : List (String × Sheet) := []
deriving DecidableEq, Repr

/-- `workbook.Sheets[name]`. -/
def Workbook.sheet? (wb : Workbook) (name : String) : Option Sheet :=
  (wb.sheets.find? (fun p => p.1 = name)).map Prod.snd

/-- The `ErrorDetail` record produced by the analyzer (a Finding). -/
structure ErrorDetail where
  row : Nat
  col : String
  type : String
  value : String
  proposed : Option String := none
  reason : Option String := none
  sheet : Option String := none
  severity : Option String := none
deriving DecidableEq, Repr

/-! ### JavaScript string helpers -/

/-- ASCII lower-casing plus the one non-ASCII letter the pattern tables
case-fold ('Ú' in `#NÚM!`); `String.prototype.toLowerCase` restricted to
the alphabet this program compares. -/
def jsCharLower (c : Char) : Char :=
  if 'A' ≤ c ∧ c ≤ 'Z' then Char.ofNat (c.toNat + 32)
  else if c = 'Ú' then 'ú' else c

/-- ASCII upper-casing plus 'ú' → 'Ú'. -/
def jsCharUpper (c : Char) : Char :=
  if 'a' ≤ c ∧ c ≤ 'z' then Char.ofNat (c.toNat - 32)
  else if c = 'ú' then 'Ú' else c

def jsLower (s : String) : String := ⟨s.toList.map jsCharLower⟩

def jsUpper (s : String) : String := ⟨s.toList.map jsCharUpper⟩

/-- The whitespace class used by `String.prototype.trim` and `\s`
(restricted to the ASCII members). -/
def isWsChar (c : Char) : Bool :=
  c = ' ' ∨ c = '\t' ∨ c = '\n' ∨ c = '\r' ∨ c.toNat = 11 ∨ c.toNat = 12

/-- `String.prototype.trim`. -/
def jsTrim (s : String) : String :=
  ⟨(s.toList.dropWhile isWsChar).reverse.dropWhile isWsChar |>.reverse⟩

def isDigitChar (c : Char) : Bool := '0' ≤ c ∧ c ≤ '9'

/-- `\w` : `[A-Za-z0-9_]`. -/
def isWordChar (c : Char) : Bool :=
  ('A' ≤ c ∧ c ≤ 'Z') ∨ ('a' ≤ c ∧ c ≤ 'z') ∨ isDigitChar c ∨ c = '_'

/-- Case-sensitive prefix test on character lists. -/
def prefixHere : List Char → List Char → Bool
  | [], _ => true
  | _ :: _, [] => false
  | a :: as, b :: bs => a = b ∧ prefixHere as bs

/-- Case-sensitive substring test (`String.prototype.includes`). -/
def includesL (needle : List Char) : List Char → Bool
  | [] => prefixHere needle []
  | c :: rest => prefixHere needle (c :: rest) ∨ includesL needle rest

def jsIncludes (s needle : String) : Bool := includesL needle.toList s.toList

def containsChar (s : String) (c : Char) : Bool := s.toList.contains c

/-- Split a character list on a separator character (`String.prototype.split`
with a one-character separator: `"".split(',') = ['']`). -/
def splitChar : List Char → Char → List (List Char)
  | [], _ => [[]]
  | c :: rest, sep =>
    match splitChar rest sep with
    | [] => [[]]
    | grp :: grps => if c = sep then [] :: grp :: grps else (c :: grp) :: grps

/-- First occurrence (index) of a case-sensitive pattern, if any. -/
def indexOfL (needle : List Char) : List Char → Option Nat
  | [] => if prefixHere needle [] then some 0 else none
  | c :: rest =>
    if prefixHere needle (c :: rest) then some 0
    else (indexOfL needle rest).map (· + 1)

/-- `String.prototype.replace` with a plain-string pattern: replace the
first occurrence only (the replacement strings used here contain no
`$`-escapes). -/
def replaceFirst (s pat repl : String) : String :=
  match indexOfL pat.toList s.toList with
  | none => s
  | some i => ⟨s.toList.take i ++ repl.toList ++ s.toList.drop (i + pat.length)⟩

def jsTake (s : String) (n : Nat) : String := ⟨s.toList.take n⟩

/-- Strip one leading `=`, as `applyFixes` does
(`p.startsWith('=') ? p.substring(1) : p`). -/
def stripEq (p : String) : String :=
  match p.toList with
  | '=' :: rest => ⟨rest⟩
  | _ => p

/-! ### Data-shape recognizers (the anchored pattern table) -/

/-- `NUMBER_PATTERN = /^-?\d+\.?\d*$/`. -/
def numShape (s : String) : Bool :=
  let cs := match s.toList with
    | '-' :: t => t
    | cs => cs
  match cs.span isDigitChar with
  | ([], _) => false
  | (_ :: _, rest) =>
    match rest with
    | [] => true
    | '.' :: r2 => r2.all isDigitChar
    | _ => false

/-- `DATE_PATTERN` : one or two digits, a slash-or-dash separator, one or
two digits, a separator, then two to four digits.  Since `\d{1,2}` is
followed by a non-digit separator, it matches exactly when the maximal digit
runs have the prescribed lengths. -/
def dateShape (s : String) : Bool :=
  let (d1, r1) := s.toList.span isDigitChar
  (decide (1 ≤ d1.length) && decide (d1.length ≤ 2)) &&
  match r1 with
  | sep1 :: r2 =>
    (sep1 == '/' || sep1 == '-') &&
    (let (d2, r3) := r2.span isDigitChar
     (decide (1 ≤ d2.length) && decide (d2.length ≤ 2)) &&
     match r3 with
     | sep2 :: r4 =>
       (sep2 == '/' || sep2 == '-') &&
       (let (d3, r5) := r4.span isDigitChar
        (decide (2 ≤ d3.length) && decide (d3.length ≤ 4)) && r5.isEmpty)
     | [] => false)
  | [] => false

/-- `EMAIL_PATTERN = /^[^\s@]+@[^\s@]+\.[^\s@]+$/` : exactly one `@`, no
whitespace, a non-empty local part, and a dot in the domain that is neither
its first nor its last character. -/
def emailShape (s : String) : Bool :=
  match splitChar s.toList '@' with
  | [a, b] =>
    a ≠ [] ∧ a.all (fun c => ¬ isWsChar c) ∧ b.all (fun c => ¬ isWsChar c) ∧
    (List.range b.length).any (fun i =>
      b.getD i ' ' = '.' ∧ 1 ≤ i ∧ i + 2 ≤ b.length)
  | _ => false

/-- `PHONE_PATTERN = /^[\d\s\(\)\-\+]+$/`. -/
def phoneShape (s : String) : Bool :=
  s.toList ≠ [] ∧ s.toList.all (fun c =>
    isDigitChar c ∨ isWsChar c ∨ c = '(' ∨ c = ')' ∨ c = '-' ∨ c = '+')

/-- `CURRENCY_PATTERN = /^[R$€£¥₹]\s*-?\d+[.,]?\d*$/`. -/
def currencyShape (s : String) : Bool :=
  match s.toList with
  | [] => false
  | c :: rest =>
    (c == 'R' || c == '$' || c == '€' || c == '£' || c == '¥' || c == '₹') &&
    (let rest := rest.dropWhile isWsChar
     let rest := match rest with
       | '-' :: t => t
       | r => r
     match rest.span isDigitChar with
     | ([], _) => false
     | (_ :: _, r2) =>
       match r2 with
       | [] => true
       | p :: r3 => (p == '.' || p == ',') && r3.all isDigitChar)

/-- The format classifier of `detectFormatInconsistencies`. -/
def classifyFormat (value : String) : String :=
  if numShape value then "number"
  else if dateShape value then "date"
  else if emailShape value then "email"
  else if phoneShape value ∧ 8 < value.length then "phone"
  else if currencyShape value then "currency"
  else "text"

/-! ### Stateful literal-alternation regexes (`/lit1|lit2|…/gi`)

`RegExp.prototype.test` on a `g`-flagged regex searches from `lastIndex`;
on success it advances `lastIndex` to the match end, on failure it resets
it to 0.  The `ERROR_PATTERNS`, `VLOOKUP_REGEX` and `HLOOKUP_REGEX` objects
are module-level constants, so this state persists across cells and across
calls of `analyzeExcelFile`. -/

/-- Case-insensitive prefix test. -/
def litHere : List Char → List Char → Bool
  | [], _ => true
  | _ :: _, [] => false
  | a :: as, b :: bs => jsCharLower a = jsCharLower b ∧ litHere as bs

/-- Leftmost match of an alternation of literals at index ≥ the start of
`cs` (whose absolute index is `i`); alternatives are tried in order at each
position.  Returns (match start, match end). -/
def findLits (lits : List (List Char)) : List Char → Nat → Option (Nat × Nat)
  | cs, i =>
    match lits.find? (fun l => litHere l cs) with
    | some l => some (i, i + l.length)
    | none =>
      match cs with
      | [] => none
      | _ :: t => findLits lits t (i + 1)

/-- `pattern.test(s)` for a `g`-flagged alternation-of-literals regex with
current `lastIndex = li`; returns the result and the new `lastIndex`. -/
def rtest (lits : List String) (s : String) (li : Nat) : Bool × Nat :=
  let cs := s.toList
  if li > cs.length then (false, 0)
  else
    match findLits (lits.map String.toList) (cs.drop li) li with
    | some (_, e) => (true, e)
    | none => (false, 0)

/-- The `ERROR_PATTERNS` table keys, in `Object.entries` order. -/
inductive ErrKind where
  | REF | VALUE | NAME | DIV | NULL | NA | NUM | GETTING_DATA
deriving DecidableEq, Repr

def ErrKind.name : ErrKind → String
  | .REF => "REF"
  | .VALUE => "VALUE"
  | .NAME => "NAME"
  | .DIV => "DIV"
  | .NULL => "NULL"
  | .NA => "NA"
  | .NUM => "NUM"
  | .GETTING_DATA => "GETTING_DATA"

/-- The literal alternatives of each `ERROR_PATTERNS` regex. -/
def ErrKind.lits : ErrKind → List String
  | .REF => ["#REF!", "#REF?"]
  | .VALUE => ["#VALUE!", "#VALOR!"]
  | .NAME => ["#NAME?", "#NOME?"]
  | .DIV => ["#DIV/0!", "#DIV!", "#DIV/0?"]
  | .NULL => ["#NULL!", "#NULO!"]
  | .NA => ["#N/A", "#N/D", "#ND"]
  | .NUM => ["#NUM!", "#NÚM!"]
  | .GETTING_DATA => ["#GETTING_DATA", "#OBTENDO_DADOS"]

def errKindOrder : List ErrKind :=
  [.REF, .VALUE, .NAME, .DIV, .NULL, .NA, .NUM, .GETTING_DATA]

/-- `VLOOKUP_REGEX = /VLOOKUP|PROCV/gi`. -/
def vlookupLits : List String := ["VLOOKUP", "PROCV"]

/-- `HLOOKUP_REGEX = /HLOOKUP|PROCH/gi`. -/
def hlookupLits : List String := ["HLOOKUP", "PROCH"]

/-- The mutable `lastIndex` state of the module-level `g`-flagged regexes
(`ERROR_PATTERNS`, `VLOOKUP_REGEX`, `HLOOKUP_REGEX`). -/
structure RState where
  pat : ErrKind → Nat
  vl : Nat
  hl : Nat

/-- The state at module load: every `lastIndex` is 0. -/
def initState : RState := ⟨fun _ => 0, 0, 0⟩

def RState.setPat (st : RState) (k : ErrKind) (n : Nat) : RState :=
  { st with pat := fun k' => if k' = k then n else st.pat k' }

/-! ### Word-boundary matchers, argument parsing, reference rewriting -/

/-- One pattern character of a `new RegExp('\\b' + wrong + '\\b', 'gi')`
pattern: `.` is a regex wildcard (any char except a line terminator),
everything else matches case-insensitively. -/
def patCharHit (p c : Char) : Bool :=
  if p = '.' then ¬ (c = '\n' ∨ c = '\r')
  else jsCharLower p = jsCharLower c

def patHere : List Char → List Char → Bool
  | [], _ => true
  | _ :: _, [] => false
  | p :: ps, c :: cs => patCharHit p c ∧ patHere ps cs

/-- End-side word boundary after consuming `n` chars of `cs`. -/
def boundaryAfter (cs : List Char) (n : Nat) : Bool :=
  match cs.drop n with
  | [] => true
  | c :: _ => ¬ isWordChar c

/-- No word character just before the current position (`prev` is the
character preceding it, none at the string start). -/
def boundaryBefore (prev : Option Char) : Bool :=
  match prev with
  | none => true
  | some c => ! isWordChar c

def wordHit (pat : List Char) (prev : Option Char) (cs : List Char) : Bool :=
  boundaryBefore prev && patHere pat cs && boundaryAfter cs pat.length

/-- Does `new RegExp('\\b'+wrong+'\\b','gi').test(s)` succeed?  (The regex
object is freshly constructed each time, so it carries no state.) -/
def wordTestGo (pat : List Char) (prev : Option Char) : List Char → Bool
  | [] => wordHit pat prev []
  | c :: rest => wordHit pat prev (c :: rest) ∨ wordTestGo pat (some c) rest

def wordTest (pat s : String) : Bool := wordTestGo pat.toList none s.toList

/-- `String.prototype.replace` with the same fresh `gi` regex: replace every
non-overlapping `\b`-delimited match, left to right.  Each step consumes at
least one character, so a character budget equal to the string length makes
the recursion structural. -/
def wordReplaceGo (pat repl : List Char) : Nat → Option Char → List Char → List Char
  | 0, _, cs => cs
  | _ + 1, _, [] => []
  | fuel + 1, prev, c :: rest =>
    if pat ≠ [] ∧ wordHit pat prev (c :: rest) then
      repl ++ wordReplaceGo pat repl fuel ((c :: rest).take pat.length).getLast?
        ((c :: rest).drop pat.length)
    else c :: wordReplaceGo pat repl fuel (some c) rest

def wordReplace (pat repl s : String) : String :=
  ⟨wordReplaceGo pat.toList repl.toList s.toList.length none s.toList⟩

/-- Count the matches of `/\bIF\(/g` in the (already upper-cased) formula
(`(upperFormula.match(/\bIF\(/g) || []).length`); the pattern has only a
leading word boundary. -/
def countIFGo : Nat → Option Char → List Char → Nat
  | 0, _, _ => 0
  | _ + 1, _, [] => 0
  | fuel + 1, prev, c :: rest =>
    if boundaryBefore prev ∧ prefixHere ['I', 'F', '('] (c :: rest) then
      1 + countIFGo fuel (some '(') (rest.drop 2)
    else countIFGo fuel (some c) rest

def countIF (uFormula : String) : Nat :=
  countIFGo uFormula.toList.length none uFormula.toList

def isUpperAZ (c : Char) : Bool := 'A' ≤ c ∧ c ≤ 'Z'

/-- `formula.replace(/([A-Z]+)(\d+)/g, '$$$1$$$2')` : prefix every maximal
upper-case-letters-then-digits cell reference with `$` before each part. -/
def replaceRefsGo : Nat → List Char → List Char
  | 0, cs => cs
  | _ + 1, [] => []
  | fuel + 1, c :: rest =>
    if isUpperAZ c then
      let letters := (c :: rest).takeWhile isUpperAZ
      let after := (c :: rest).drop letters.length
      let digits := after.takeWhile isDigitChar
      let after2 := after.drop digits.length
      if digits = [] then letters ++ replaceRefsGo fuel after
      else '$' :: letters ++ '$' :: digits ++ replaceRefsGo fuel after2
    else c :: replaceRefsGo fuel rest

def replaceRefs (s : String) : String :=
  ⟨replaceRefsGo s.toList.length s.toList⟩

/-- `formula.match(/\(([^)]+)\))/`-style first parenthesis group: the
leftmost `(` followed by at least one non-`)` character and a closing `)`;
returns the captured group. -/
def firstParenGroup : List Char → Option (List Char)
  | [] => none
  | '(' :: rest =>
    let grp := rest.takeWhile (fun c => c ≠ ')')
    match rest.drop grp.length with
    | ')' :: _ => if grp = [] then firstParenGroup rest else some grp
    | _ => firstParenGroup rest
  | _ :: rest => firstParenGroup rest

/-- The comma-split, trimmed argument list of the formula's first
parenthesis group (empty when there is no group). -/
def argsOf (formula : String) : List String :=
  match firstParenGroup formula.toList with
  | none => []
  | some grp => (splitChar grp ',').map (fun a => jsTrim ⟨a⟩)

/-! ### The cross-sheet reference scanner

`sheetRefPattern` is declared locally inside
`validateCrossSheetReferences`, so its `lastIndex` never leaks between
calls (each `while exec` loop runs to `null`, which resets it). -/

/-- Try the sheet-reference pattern at the head of `cs` : an optional quote,
one or more characters that are not quotes or `!` (the capture), an optional
quote, then `!`.  Returns (consumed length, whole match, capture). -/
def srHere (cs : List Char) : Option (Nat × List Char × List Char) :=
  let isQ : Char → Bool := fun c => c = '\'' ∨ c = '"'
  let isBody : Char → Bool := fun c => ¬ (isQ c ∨ c = '!')
  let (q, afterQ) := match cs with
    | c :: t => if isQ c then (1, t) else (0, cs)
    | [] => (0, cs)
  let body := afterQ.takeWhile isBody
  if body = [] then none
  else
    match afterQ.drop body.length with
    | '!' :: _ => some (q + body.length + 1, cs.take (q + body.length + 1), body)
    | c :: '!' :: _ =>
      if isQ c then some (q + body.length + 2, cs.take (q + body.length + 2), body)
      else none
    | _ => none

/-- All `exec` results of the sheet-reference pattern over a formula:
(whole match, captured sheet name) pairs, leftmost first, non-overlapping. -/
def srScan (fuel : Nat) (cs : List Char) : List (String × String) :=
  match fuel with
  | 0 => []
  | fuel + 1 =>
    match cs with
    | [] => []
    | _ :: rest =>
      match srHere cs with
      | some (len, whole, cap) => (⟨whole⟩, ⟨cap⟩) :: srScan fuel (cs.drop len)
      | none => srScan fuel rest

def sheetRefMatches (formula : String) : List (String × String) :=
  srScan formula.toList.length formula.toList

/-! ### Column and cell address encoding (`XLSX.utils`) -/

/-- `encode_col` : 0 → "A", 25 → "Z", 26 → "AA", … (bijective base 26);
fuelled structural recursion mirroring the library loop. -/
def encodeColGo : Nat → Nat → String → String
  | 0, _, acc => acc
  | fuel + 1, col, acc =>
    if col = 0 then acc
    else encodeColGo fuel ((col - 1) / 26)
      (⟨[Char.ofNat ((col - 1) % 26 + 65)]⟩ ++ acc)

def encode_col (c : Nat) : String := encodeColGo (c + 2) (c + 1) ""

/-- `encode_cell({r, c})` : column label followed by the 1-based row. -/
def encode_cell (r c : Nat) : String := encode_col c ++ toString (r + 1)

/-- The inclusive integer interval `[lo, hi]` as a list (empty when
`hi < lo`), the shape of every `for (let R = lo; R <= hi; R++)` loop. -/
def natRange (lo hi : Nat) : List Nat := List.range' lo (hi + 1 - lo)

/-! ### The fix proposer (`proposeFixForError`) -/

/-- `VLOOKUP_REGEX.test(upperFormula) || HLOOKUP_REGEX.test(upperFormula)` :
short-circuit disjunction over the two stateful module-level regexes. -/
def lookupTest (st : RState) (uFormula : String) : Bool × RState :=
  let (b1, li1) := rtest vlookupLits uFormula st.vl
  if b1 then (true, { st with vl := li1 })
  else
    let (b2, li2) := rtest hlookupLits uFormula st.hl
    (b2, { st with vl := li1, hl := li2 })

/-- The `commonFixes` table of the `#NAME?` branch, in insertion order. -/
def commonFixes : List (String × String) :=
  [("SOMA", "SUM"), ("SE", "IF"), ("CONT.SE", "COUNTIF"), ("SOMASE", "SUMIF")]

/-- The `#NAME?` loop: rewrite the first `commonFixes` entry whose
`\b`-delimited (dot-wildcard) pattern occurs in the formula, and stop. -/
def nameFix (formula : String) : List (String × String) → Option (String × String)
  | [] => none
  | (wrong, correct) :: rest =>
    if wordTest wrong formula then
      some ("=" ++ wordReplace wrong correct formula,
        "Nome de função corrigido de " ++ wrong ++ " para " ++ correct ++ ".")
    else nameFix formula rest

/-- The `#REF!` reason string. -/
def refReason : String :=
  "Substituído o intervalo quebrado (#REF!) por um range dinâmico baseado nos dados disponíveis."

/-- The rebuilt exact-match lookup of the `#REF!` branch: the first and
third parsed arguments around the sheet's full bounding range from A1. -/
def rebuiltLookup (formula : String) (rng : CellRange) : String :=
  let args := argsOf formula
  "=VLOOKUP(" ++ args.getD 0 "" ++ ", A1:" ++ encode_col rng.ec ++
    toString (rng.er + 1) ++ ", " ++ args.getD 2 "" ++ ", FALSE)"

/-- The state-free part of `proposeFixForError`, given the outcome `isLk`
of the lookup-regex tests of the `REF` branch. -/
def proposeFixCore (etype formula : String) (rng : CellRange) (isLk : Bool) :
    Option (String × String) :=
  let refProp : Option (String × String) :=
    if isLk ∧ 3 ≤ (argsOf formula).length then
      some (rebuiltLookup formula rng, refReason)
    else none
  match refProp with
  | some p => some p
  | none =>
    if etype = "VALUE" then
      some ("=IFERROR(" ++ formula ++ ", 0)",
        "Encapsulado com IFERROR para tratar o erro #VALUE! e retornar 0 em caso de falha.")
    else if etype = "NAME" then nameFix formula commonFixes
    else if etype = "DIV" then
      some ("=IFERROR(" ++ formula ++ ", \"N/A\")",
        "Encapsulado com IFERROR para evitar divisão por zero.")
    else none

/-- `proposeFixForError` : dispatch on the finding's error type; returns the
optional (formula, reason) proposal and the updated regex state.  The
lookup-regex tests run only in the `REF` case (short-circuit `&&`), and
every branch returns the state those tests leave behind. -/
def proposeFixForError (etype : String) (formula : String) (rng : CellRange)
    (st : RState) : Option (String × String) × RState :=
  if formula = "" then (none, st)
  else
    let uF := jsUpper formula
    let (isLk, st1) := if etype = "REF" then lookupTest st uF else (false, st)
    (proposeFixCore etype formula rng isLk, st1)

/-! ### Detectors -/

def Cell.truthyV (c : Cell) : Bool := (c.v.map JVal.truthy).getD false

def Cell.truthyF (c : Cell) : Bool := c.f.getD "" ≠ ""

/-- Is the cell at (r, c) present with a truthy value
(`cell && cell.v` on a looked-up address)? -/
def truthyVAt (ws : Sheet) (r c : Nat) : Bool :=
  ((ws.cell? (encode_cell r c)).map Cell.truthyV).getD false

/-- `detectFormulaIssues` : over-long formula, IF-count, unlocked lookup
(the third test advances the module-level `VLOOKUP_REGEX` state). -/
def detectFormulaIssues (formula sheetName : String) (row col : Nat)
    (st : RState) : Option ErrorDetail × RState :=
  let uF := jsUpper formula
  if 500 < formula.length then
    (some { row := row + 1, col := encode_col col, type := "COMPLEX_FORMULA",
            value := "=" ++ jsTake formula 100 ++ "...", sheet := some sheetName,
            severity := some "info",
            reason := some "Fórmula muito longa e complexa. Considere dividir em células auxiliares." }, st)
  else
    let ifCount := countIF uF
    if 5 < ifCount then
      (some { row := row + 1, col := encode_col col, type := "NESTED_IFS",
              value := "=" ++ formula, sheet := some sheetName,
              severity := some "warning",
              reason := some (toString ifCount ++ " funções IF aninhadas detectadas. Considere usar SWITCH ou tabelas de referência.") }, st)
    else
      let (b, li) := rtest vlookupLits uF st.vl
      let st' := { st with vl := li }
      if b ∧ ¬ containsChar formula '$' then
        (some { row := row + 1, col := encode_col col, type := "VLOOKUP_NO_LOCK",
                value := "=" ++ formula, sheet := some sheetName,
                severity := some "warning",
                reason := some "VLOOKUP/PROCV sem referências absolutas ($). Pode causar erros ao copiar.",
                proposed := some ("=" ++ replaceRefs formula) }, st')
      else (none, st')

/-- `validateDataType` : flag text in a column whose first 21 sampled rows
are predominantly number-shaped.  The float comparison
`textCount < numericCount / 3` is exact for these small counts and equals
`3 * textCount < numericCount`. -/
def validateDataType (cell : Cell) (row col : Nat) (sheetName : String)
    (ws : Sheet) (rng : CellRange) : Option ErrorDetail :=
  let cellValue := jsToStr cell.v
  let sample := natRange rng.sr (min (rng.sr + 20) rng.er)
  let counts := sample.foldl (fun (nc : Nat × Nat) r =>
    match ws.cell? (encode_cell r col) with
    | none => nc
    | some cc =>
      if cc.truthyF then nc
      else
        let val := jsToStr cc.v
        if numShape val then (nc.1 + 1, nc.2)
        else if val.length > 0 then (nc.1, nc.2 + 1)
        else nc) (0, 0)
  if 5 < counts.1 ∧ 3 * counts.2 < counts.1 then
    if ¬ numShape cellValue ∧ 0 < cellValue.length then
      some { row := row + 1, col := encode_col col, type := "TYPE_MISMATCH",
             value := cellValue, sheet := some sheetName,
             severity := some "warning",
             reason := some "Texto detectado em coluna numérica. Isso pode causar erros em cálculos." }
    else none
  else none

/-- `validateMergedCell` : flag a merge range whose anchor cell carries a
formula. -/
def validateMergedCell (merge : CellRange) (sheetName : String) (ws : Sheet) :
    Option ErrorDetail :=
  let startCell := encode_cell merge.sr merge.sc
  let endCell := encode_cell merge.er merge.ec
  match ws.cell? startCell with
  | some cell =>
    if cell.truthyF then
      some { row := merge.sr + 1, col := encode_col merge.sc,
             type := "MERGED_FORMULA",
             value := "Mesclado " ++ startCell ++ ":" ++ endCell,
             sheet := some sheetName, severity := some "warning",
             reason := some "Célula mesclada contém fórmula, o que pode causar comportamento inesperado." }
    else none
  | none => none

/-- `validateCrossSheetReferences` : flag `Sheet!`-style references to
missing sheet names, proposing the workbook's first sheet name. -/
def validateCrossSheetReferences (ws : Sheet) (sheetName : String)
    (wb : Workbook) (rng : CellRange) : List ErrorDetail :=
  (natRange rng.sr rng.er).flatMap (fun r =>
    (natRange rng.sc rng.ec).flatMap (fun c =>
      match ws.cell? (encode_cell r c) with
      | none => []
      | some cell =>
        if cell.truthyF then
          let formula := cell.f.getD ""
          (sheetRefMatches formula).flatMap (fun m =>
            if wb.sheetNames.contains m.2 then []
            else [{ row := r + 1, col := encode_col c, type := "CROSS_SHEET_REF",
                    value := "=" ++ formula, sheet := some sheetName,
                    severity := some "critical",
                    reason := some ("Referência a sheet inexistente: \"" ++ m.2 ++ "\""),
                    proposed := some ("=" ++ replaceFirst formula m.1
                      (wb.sheetNames.headD "undefined" ++ "!")) }])
        else []))

/-- `detectEmptyGaps` : a visited position whose cell has no truthy value,
with some truthy-valued cell above and below in the column. -/
def detectEmptyGaps (ws : Sheet) (row col : Nat) (rng : CellRange)
    (sheetName : String) : Option ErrorDetail :=
  if truthyVAt ws row col then none
  else
    let hasAbove := (List.range' rng.sr (row - rng.sr)).any
      (fun r => truthyVAt ws r col)
    let hasBelow := (natRange (row + 1) rng.er).any (fun r => truthyVAt ws r col)
    if hasAbove ∧ hasBelow then
      some { row := row + 1, col := encode_col col, type := "EMPTY_GAP",
             value := "(vazio)", sheet := some sheetName,
             severity := some "info",
             reason := some "Célula vazia detectada em meio aos dados. Pode indicar informação faltante." }
    else none

/-- Insertion-ordered multimap append (the JS `Map` pattern
`if (!m.has(k)) m.set(k, []); m.get(k).push(v)`). -/
def bucketAdd (m : List (String × List Nat)) (key : String) (v : Nat) :
    List (String × List Nat) :=
  if m.any (fun p => p.1 = key) then
    m.map (fun p => if p.1 = key then (p.1, p.2 ++ [v]) else p)
  else m ++ [(key, [v])]

/-- `detectFormatInconsistencies` : per column, bucket the truthy-valued
cells by recognized format (insertion-ordered, as a JS `Map`); when several
formats coexist, report each minority-format cell. -/
def detectFormatInconsistencies (ws : Sheet) (sheetName : String)
    (rng : CellRange) : List ErrorDetail :=
  (natRange rng.sc rng.ec).flatMap (fun c =>
    let columnFormats := (natRange rng.sr rng.er).foldl
      (fun (m : List (String × List Nat)) r =>
        match ws.cell? (encode_cell r c) with
        | none => m
        | some cell =>
          if cell.truthyV then
            bucketAdd m (classifyFormat (jsToStr cell.v)) r
          else m) []
    if 1 < columnFormats.length then
      let mainFormat := ((columnFormats.map Prod.fst).find? (fun f => f ≠ "text")).getD "text"
      columnFormats.flatMap (fun fr =>
        if fr.1 ≠ mainFormat ∧ fr.2.length < 5 then
          fr.2.map (fun r =>
            { row := r + 1, col := encode_col c, type := "FORMAT_MISMATCH",
              value := ((ws.cell? (encode_cell r c)).map (fun cc => jsToStr cc.v)).getD "",
              sheet := some sheetName, severity := some "info",
              reason := some ("Formato \"" ++ fr.1 ++ "\" detectado em coluna com formato predominante \"" ++ mainFormat ++ "\".") })
        else [])
    else [])

/-! ### The per-sheet scan of `analyzeExcelFile` -/

/-- The duplicate-collection store: column index → (normalized value →
0-based rows), both levels in insertion order. -/
abbrev CVMap := List (Nat × List (String × List Nat))

def cvAdd (cv : CVMap) (col : Nat) (key : String) (r : Nat) : CVMap :=
  if cv.any (fun p => p.1 = col) then
    cv.map (fun p => if p.1 = col then (p.1, bucketAdd p.2 key r) else p)
  else cv ++ [(col, [(key, [r])])]

/-- Collect a populated cell into the duplicate store when it has a truthy
non-formula value with a truthy trim. -/
def dupCollect (cv : CVMap) (col row : Nat) (cell : Cell) : CVMap :=
  let cellValue := jsToStr cell.v
  let cellFormula := cell.f.getD ""
  if cellValue ≠ "" ∧ cellFormula = "" ∧ jsTrim cellValue ≠ "" then
    cvAdd cv col (jsTrim (jsLower cellValue)) row
  else cv

/-- Emit the duplicate findings: any normalized value of length > 2 held by
more than one cell of a column, one `info` finding per occurrence. -/
def emitDups (cv : CVMap) (sheetName : String) : List ErrorDetail :=
  cv.flatMap (fun p =>
    p.2.flatMap (fun vr =>
      if 1 < vr.2.length ∧ 2 < vr.1.length then
        vr.2.map (fun r =>
          { row := r + 1, col := encode_col p.1, type := "DUPLICATE",
            value := vr.1, sheet := some sheetName, severity := some "info",
            reason := some ("Valor duplicado encontrado em " ++ toString vr.2.length ++ " células desta coluna.") })
      else [])
    )

/-- Native-error-tag classification (`cellType === 'e'` branch): keyword
sniffing of the upper-cased displayed value. -/
def classifyETag (valueUpper : String) : String :=
  if jsIncludes valueUpper "REF" then "REF"
  else if jsIncludes valueUpper "DIV" then "DIV"
  else if jsIncludes valueUpper "NAME" ∨ jsIncludes valueUpper "NOME" then "NAME"
  else if jsIncludes valueUpper "NULL" ∨ jsIncludes valueUpper "NULO" then "NULL"
  else if jsIncludes valueUpper "N/A" ∨ jsIncludes valueUpper "N/D" then "NA"
  else if jsIncludes valueUpper "NUM" ∨ jsIncludes valueUpper "NÚM" then "NUM"
  else "VALUE"

/-- Build the error finding shared by the native-tag and pattern branches. -/
def mkErrorFinding (row col : Nat) (etype cellValue cellFormula sheetName : String)
    (prop : Option (String × String)) : ErrorDetail :=
  { row := row + 1, col := encode_col col, type := etype,
    value := if cellFormula ≠ "" then "=" ++ cellFormula else cellValue,
    sheet := some sheetName,
    severity := some (if etype = "REF" ∨ etype = "DIV" then "critical" else "warning"),
    proposed := prop.map Prod.fst, reason := prop.map Prod.snd }

/-- The `for … of Object.entries(ERROR_PATTERNS)` loop with its `break` :
test each stateful pattern against the displayed value then the formula
text (short-circuit `||`), build the finding and its proposal on the first
hit. -/
def patternScan (ks : List ErrKind) (cellValue cellFormula : String)
    (rng : CellRange) (sheetName : String) (row col : Nat) (st : RState) :
    Option ErrorDetail × RState :=
  match ks with
  | [] => (none, st)
  | k :: rest =>
    let (b1, li1) := rtest k.lits cellValue (st.pat k)
    let st1 := st.setPat k li1
    if b1 then
      let (prop, st2) := proposeFixForError k.name cellFormula rng st1
      (some (mkErrorFinding row col k.name cellValue cellFormula sheetName prop), st2)
    else
      let (b2, li2) := rtest k.lits cellFormula li1
      let st2 := st1.setPat k li2
      if b2 then
        let (prop, st3) := proposeFixForError k.name cellFormula rng st2
        (some (mkErrorFinding row col k.name cellValue cellFormula sheetName prop), st3)
      else patternScan rest cellValue cellFormula rng sheetName row col st2

/-- The findings the first-pass loop emits for one populated cell: the
native-error-tag branch `continue`s past all other checks; the textual
pattern branch only `break`s out of the pattern loop, so the formula, type
and gap checks still run. -/
def cellFindings (sheetName : String) (ws : Sheet) (rng : CellRange)
    (row col : Nat) (cell : Cell) (st : RState) : List ErrorDetail × RState :=
  let cellValue := jsToStr cell.v
  let cellFormula := cell.f.getD ""
  if cell.t = some 'e' then
    let etype := classifyETag (jsUpper cellValue)
    let (prop, st') := proposeFixForError etype cellFormula rng st
    ([mkErrorFinding row col etype cellValue cellFormula sheetName prop], st')
  else
    let (patF, st1) := patternScan errKindOrder cellValue cellFormula rng sheetName row col st
    let (fIss, st2) :=
      if cellFormula ≠ "" then detectFormulaIssues cellFormula sheetName row col st1
      else (none, st1)
    let tErr :=
      if cellValue ≠ "" ∧ cellFormula = "" then
        validateDataType cell row col sheetName ws rng
      else none
    let gErr := detectEmptyGaps ws row col rng sheetName
    (patF.toList ++ fIss.toList ++ tErr.toList ++ gErr.toList, st2)

/-- First-pass accumulator: findings so far, the duplicate store, and the
regex state. -/
structure ScanAcc where
  errs : List ErrorDetail
  cv : CVMap
  st : RState

/-- One iteration of the nested cell loop. -/
def scanStep (sheetName : String) (ws : Sheet) (rng : CellRange)
    (acc : ScanAcc) (rc : Nat × Nat) : ScanAcc :=
  match ws.cell? (encode_cell rc.1 rc.2) with
  | none => acc
  | some cell =>
    let cv' := dupCollect acc.cv rc.2 rc.1 cell
    let (fs, st') := cellFindings sheetName ws rng rc.1 rc.2 cell acc.st
    ⟨acc.errs ++ fs, cv', st'⟩

/-- The row-major list of positions of the bounding range. -/
def rangePositions (rng : CellRange) : List (Nat × Nat) :=
  (natRange rng.sr rng.er).flatMap (fun r =>
    (natRange rng.sc rng.ec).map (fun c => (r, c)))

/-- Analyze one sheet: the first-pass cell loop, then duplicates, merged
cells, cross-sheet references and format inconsistencies, concatenated in
program order. -/
def analyzeSheet (wb : Workbook) (sheetName : String) (ws : Sheet)
    (st : RState) : List ErrorDetail × RState :=
  let rng := ws.range
  let acc := (rangePositions rng).foldl (scanStep sheetName ws rng) ⟨[], [], st⟩
  (acc.errs ++ emitDups acc.cv sheetName ++
    ws.merges.filterMap (fun m => validateMergedCell m sheetName ws) ++
    validateCrossSheetReferences ws sheetName wb rng ++
    detectFormatInconsistencies ws sheetName rng,
   acc.st)

/-- `analyzeExcelFile(file, selectedSheets?)` after decoding: analyze the
selected sheets (all of them when the selection is absent or empty),
skipping selected names with no sheet; findings are concatenated in
selection order.  The regex state is the module-level mutable state: it is
threaded in and out. -/
def sheetStep (wb : Workbook) (acc : List ErrorDetail × RState)
    (name : String) : List ErrorDetail × RState :=
  match wb.sheet? name with
  | none => acc
  | some ws =>
    let (fs, st') := analyzeSheet wb name ws acc.2
    (acc.1 ++ fs, st')

def analyzeExcelFile (wb : Workbook) (selectedSheets : Option (List String))
    (st : RState) : List ErrorDetail × RState :=
  let sheetsToAnalyze :=
    match selectedSheets with
    | some l => if l.length > 0 then l else wb.sheetNames
    | none => wb.sheetNames
  sheetsToAnalyze.foldl (sheetStep wb) ([], st)

/-! ### The patch applier (`applyFixes`) -/

/-- Replace-or-insert a cell binding (`worksheet[addr] = …` / in-place
field mutation): existing bindings keep their position. -/
def Sheet.setCell (ws : Sheet) (addr : String) (c : Cell) : Sheet :=
  if ws.cells.any (fun p => p.1 = addr) then
    { ws with cells := ws.cells.map (fun p => if p.1 = addr then (p.1, c) else p) }
  else { ws with cells := ws.cells ++ [(addr, c)] }

/-- Replace the sheet bound to `name` (the JS object already holds it). -/
def Workbook.setSheet (wb : Workbook) (name : String) (ws : Sheet) : Workbook :=
  { wb with sheets := wb.sheets.map (fun p => if p.1 = name then (p.1, ws) else p) }

/-- `error.sheet || workbook.SheetNames[0]` : the finding's sheet name when
truthy, otherwise the first sheet name (none when the workbook has no
sheets, in which case the lookup below fails and the fix is skipped). -/
def resolveSheetName (wb : Workbook) (e : ErrorDetail) : Option String :=
  match e.sheet with
  | some s => if s ≠ "" then some s else wb.sheetNames.head?
  | none => wb.sheetNames.head?

/-- Apply one accepted finding: skip when it has no truthy proposal or its
resolved sheet is missing; otherwise set the stripped formula on the
(resolved-or-created) cell and delete the cached value. -/
def applyStep (wb : Workbook) (e : ErrorDetail) : Workbook :=
  match e.proposed with
  | none => wb
  | some p =>
    if p = "" then wb
    else
      match resolveSheetName wb e with
      | none => wb
      | some sheetName =>
        match wb.sheet? sheetName with
        | none => wb
        | some ws =>
          let cellAddress := e.col ++ toString e.row
          let ws' :=
            match ws.cell? cellAddress with
            | some cell => ws.setCell cellAddress { cell with f := some (stripEq p), v := none }
            | none => ws.setCell cellAddress { f := some (stripEq p), v := none, t := some 'n', w := none }
          wb.setSheet sheetName ws'

/-- `applyFixes` after decoding: iterate the accepted indices in insertion
order; an out-of-range index makes `errors[index].proposed` throw, which
rejects the whole call (`none`).  On success the mutated workbook is
returned (re-encoding is the external codec). -/
def applyFixes (errors : List ErrorDetail) (accepted : List Nat)
    (wb : Workbook) : Option Workbook :=
  accepted.foldlM (fun w idx =>
    match errors[idx]? with
    | none => none
    | some e => some (applyStep w e)) wb

/-- The cell a workbook holds at a (sheet name, address) pair. -/
def cellAt (wb : Workbook) (sheetName addr : String) : Option Cell :=
  (wb.sheet? sheetName).bind (fun ws => ws.cell? addr)

/-- The (sheet name, address) a finding writes to, if applying it writes at
all: requires a truthy proposal and a resolvable, present sheet. -/
def writeTarget (wb : Workbook) (e : ErrorDetail) : Option (String × String) :=
  match e.proposed with
  | none => none
  | some p =>
    if p = "" then none
    else
      match resolveSheetName wb e with
      | none => none
      | some s =>
        if (wb.sheet? s).isSome then some (s, e.col ++ toString e.row) else none

/-- The write target of accepted index `i`. -/
def targetOf (wb : Workbook) (errors : List ErrorDetail) (i : Nat) :
    Option (String × String) :=
  errors[i]?.bind (writeTarget wb)

/-! ### Concrete workbooks and findings used by the theorems below -/

/-- One sheet, one text cell A1 = `#REF!`. -/
def wsRef1 : Sheet :=
  { cells := [("A1", { v := some (.jstr "#REF!"), t := some 's' })],
    refRange := some ⟨0, 0, 0, 0⟩ }

def wbRef1 : Workbook :=
  { sheetNames := ["Sheet1"], sheets := [("Sheet1", wsRef1)] }

/-- One sheet, two text cells A1 = A2 = `#REF!`. -/
def wsRef2 : Sheet :=
  { cells := [("A1", { v := some (.jstr "#REF!"), t := some 's' }),
              ("A2", { v := some (.jstr "#REF!"), t := some 's' })],
    refRange := some ⟨0, 0, 1, 0⟩ }

def wbRef2 : Workbook :=
  { sheetNames := ["Sheet1"], sheets := [("Sheet1", wsRef2)] }

/-- One sheet with A1 = "x", A3 = "y" and no cell object at A2 (the normal
sparse encoding of an empty cell between data). -/
def wsGap : Sheet :=
  { cells := [("A1", { v := some (.jstr "x"), t := some 's' }),
              ("A3", { v := some (.jstr "y"), t := some 's' })],
    refRange := some ⟨0, 0, 2, 0⟩ }

def wbGap : Workbook :=
  { sheetNames := ["Sheet1"], sheets := [("Sheet1", wsGap)] }

/-- One sheet whose A1 is a lookup formula cell with cached text `#N/A`
(string tag, not the native error tag). -/
def wsMix : Sheet :=
  { cells := [("A1", { v := some (.jstr "#N/A"),
                       f := some "VLOOKUP(A1,B:C,2)", t := some 's' })],
    refRange := some ⟨0, 0, 0, 0⟩ }

def wbMix : Workbook :=
  { sheetNames := ["Sheet1"], sheets := [("Sheet1", wsMix)] }

/-- A native-error-tagged cell (`t = 'e'`) holding a long lookup formula. -/
def errTagCell : Cell :=
  { v := some (.jstr "#DIV/0!"), f := some "A1/B1", t := some 'e' }

/-- A 501-character formula containing six `IF(` calls: both
`detectFormulaIssues` thresholds hold at once. -/
def longIfFormula : String :=
  "IF(IF(IF(IF(IF(IF(" ++ ⟨List.replicate 483 'A'⟩

/-- A formula under 500 characters with six `IF(` calls. -/
def sixIfFormula : String := "IF(1,IF(1,IF(1,IF(1,IF(1,IF(1,2))))))"

/-- Two caller-supplied findings proposing different formulas for the same
cell Sheet1!A1. -/
def fixA : ErrorDetail :=
  { row := 1, col := "A", type := "VALUE", value := "x",
    proposed := some "=AAA", reason := some "r", sheet := some "Sheet1" }

def fixB : ErrorDetail :=
  { row := 1, col := "A", type := "DIV", value := "x",
    proposed := some "=BBB", reason := some "r", sheet := some "Sheet1" }

/-- A finding naming a sheet absent from `wbRef1`. -/
def fixC : ErrorDetail :=
  { row := 1, col := "A", type := "VALUE", value := "x",
    proposed := some "=CCC", reason := some "r", sheet := some "Nope" }

/-- A finding targeting a cell that does not exist yet (B2). -/
def fixD : ErrorDetail :=
  { row := 2, col := "B", type := "VALUE", value := "x",
    proposed := some "=DDD", reason := some "r", sheet := some "Sheet1" }

/-- A formula-bearing cell whose cached value carries the `#VALUE!`
signature: its finding receives an IFERROR proposal. -/
def wsVal : Sheet :=
  { cells := [("A1", { v := some (.jstr "#VALUE!"), f := some "A1+B1",
                       t := some 's' })],
    refRange := some ⟨0, 0, 0, 0⟩ }

def wbVal : Workbook :=
  { sheetNames := ["Sheet1"], sheets := [("Sheet1", wsVal)] }

/-- One sheet where A1 holds a `$`-locked lookup formula (with a cached
numeric value) and A2 holds a plain three-argument lookup formula whose
cached text is the `#REF!` signature (string tag).  Scanning A1 makes the
unlocked-lookup check run `VLOOKUP_REGEX.test` (true, `lastIndex := 7`)
while emitting nothing, so A2's fix proposer sees a stale lookup-regex
state. -/
def wsStale : Sheet :=
  { cells := [("A1", { v := some (.jnum 1), f := some "VLOOKUP($A$1,B:C,2)",
                       t := some 'n' }),
              ("A2", { v := some (.jstr "#REF!"), f := some "VLOOKUP(A2,B:C,2)",
                       t := some 's' })],
    refRange := some ⟨0, 0, 1, 0⟩ }

def wbStale : Workbook :=
  { sheetNames := ["Sheet1"], sheets := [("Sheet1", wsStale)] }

/-- Every finding emitted by the analyzer satisfies: a present, non-empty
`proposed` field comes with a present, non-empty `reason` field. -/
def EDinv (e : ErrorDetail) : Prop :=
  e.proposed.getD "" ≠ "" → e.reason.getD "" ≠ ""

/-! ### Theorems -/

set_option maxRecDepth 100000

/-- C1: the claim that two runs of `analyzeExcelFile` on an identical
workbook and selection yield identical Finding sequences fails on the code:
the module-level `ERROR_PATTERNS` regexes are `g`-flagged and used with
`test`, so their `lastIndex` survives the first run.  On a workbook whose
single cell is the text `#REF!`, the first run reports the REF finding and
leaves `lastIndex = 5`; the second run finds nothing. -/
theorem c1_determinism_fails_across_runs :
    (analyzeExcelFile wbRef1 none (analyzeExcelFile wbRef1 none initState).2).1 = [] ∧
    (analyzeExcelFile wbRef1 none initState).1 ≠
      (analyzeExcelFile wbRef1 none (analyzeExcelFile wbRef1 none initState).2).1 := by
  decide

/-- C2: the claim that every populated, non-error-tagged cell whose
displayed value contains an error signature receives a matching Finding
fails on the code: with A1 = A2 = `#REF!`, matching A1 advances the shared
REF pattern's `lastIndex` past the signature, so the identical A2 — whose
value matches the pattern from a fresh state — gets no REF finding at all
(only the severity-`info` duplicate finding appears at row 2). -/
theorem c2_second_signature_cell_missed :
    wsRef2.cell? "A2" = some { v := some (.jstr "#REF!"), t := some 's' } ∧
    (rtest (ErrKind.lits .REF) "#REF!" 0).1 = true ∧
    ((analyzeExcelFile wbRef2 none initState).1.any
      (fun e => e.row = 1 ∧ e.col = "A" ∧ e.type = "REF" ∧
        e.severity = some "critical")) = true ∧
    ((analyzeExcelFile wbRef2 none initState).1.all
      (fun e => ¬ (e.row = 2 ∧ e.type = "REF"))) = true := by
  decide

/-- C3 counterexample: the claim says every accepted index with a proposal
and an existing target sheet ends with its own proposal on the target cell.
With two accepted findings proposing `=AAA` then `=BBB` for the same cell
Sheet1!A1, the final formula is `BBB`, not the first index's `AAA`. -/
theorem c3_earlier_accepted_proposal_overwritten :
    ((applyFixes [fixA, fixB] [0, 1] wbRef1).bind
      (fun w => cellAt w "Sheet1" "A1")).map (fun c => c.f) = some (some "BBB") ∧
    some "BBB" ≠ some (stripEq "=AAA") := by
  decide

/-- C4 counterexample: a textual error-signature match only `break`s out of
the pattern loop, it does not `continue` past the other per-cell checks.
The cell A1 (value `#N/A`, lookup formula, string tag) receives both the NA
error finding and the unlocked-lookup heuristic finding in the same pass. -/
theorem c4_signature_match_does_not_skip_heuristics :
    ((analyzeExcelFile wbMix none initState).1.any
      (fun e => e.row = 1 ∧ e.col = "A" ∧ e.type = "NA")) = true ∧
    ((analyzeExcelFile wbMix none initState).1.any
      (fun e => e.row = 1 ∧ e.col = "A" ∧ e.type = "VLOOKUP_NO_LOCK")) = true := by
  decide

/-- C5: the claim fails on the code because the empty-gap check runs inside
the cell loop after `if (!cell) continue` : a position with no cell object
at all — the normal sparse encoding of an empty cell — is never examined.
With A1 = "x", A3 = "y" and no cell at A2, the analysis returns no findings
whatsoever, although A2 is a valueless position strictly between two
non-empty cells of the same column. -/
theorem c5_absent_gap_cell_not_flagged :
    wsGap.cell? "A2" = none ∧ truthyVAt wsGap 0 0 = true ∧
    truthyVAt wsGap 2 0 = true ∧
    (analyzeExcelFile wbGap none initState).1 = [] := by
  decide

/-- C9 counterexample: `detectFormulaIssues` returns at the first hit, so a
formula that is both longer than 500 characters and contains more than five
`IF(` calls yields only the `info` complex-formula finding — the claimed
`warning` nested-conditionals finding is never produced for it. -/
theorem c9_overlong_formula_shadows_nested_ifs :
    500 < longIfFormula.length ∧ 5 < countIF (jsUpper longIfFormula) ∧
    ((detectFormulaIssues longIfFormula "Sheet1" 0 0 initState).1.map
      (fun e => (e.type, e.severity))) = some ("COMPLEX_FORMULA", some "info") := by
  decide

lemma classifyETag_cases (s : String) :
    classifyETag s = "REF" ∨ classifyETag s = "DIV" ∨ classifyETag s = "NAME" ∨
    classifyETag s = "NULL" ∨ classifyETag s = "NA" ∨ classifyETag s = "NUM" ∨
    classifyETag s = "VALUE" := by
  unfold classifyETag
  split_ifs <;> simp

/-- C4 (amended): only the native-error-tag branch skips the remaining
per-cell checks.  For a populated cell whose codec tag is 'e', the per-cell
pass emits exactly one finding — the classified error — and in particular
no formula-complexity, nested-conditionals, unlocked-lookup, type-mismatch
or empty-gap finding for that cell.  (A textual signature match, by
contrast, only breaks out of the pattern loop; see the counterexample.) -/
theorem c4_error_tag_skips_heuristics (sheetName : String) (ws : Sheet)
    (rng : CellRange) (r c : Nat) (cell : Cell) (st : RState)
    (h : cell.t = some 'e') :
    (cellFindings sheetName ws rng r c cell st).1.length = 1 ∧
    ∀ e ∈ (cellFindings sheetName ws rng r c cell st).1,
      e.type ≠ "COMPLEX_FORMULA" ∧ e.type ≠ "NESTED_IFS" ∧
      e.type ≠ "VLOOKUP_NO_LOCK" ∧ e.type ≠ "TYPE_MISMATCH" ∧
      e.type ≠ "EMPTY_GAP" := by
  cases hpf : proposeFixForError (classifyETag (jsUpper (jsToStr cell.v)))
      (cell.f.getD "") ws.range st with
  | mk prop st2 =>
    constructor
    · simp [cellFindings, h, hpf]
    · intro e he
      simp [cellFindings, h, hpf] at he
      subst he
      have := classifyETag_cases (jsUpper (jsToStr cell.v))
      simp [mkErrorFinding]
      rcases this with h' | h' | h' | h' | h' | h' | h' <;> rw [h'] <;> simp

/-- Witness for C4 (amended) at a concrete error-tagged cell. -/
theorem c4_error_tag_skips_heuristics_witness :
    errTagCell.t = some 'e' ∧
    (cellFindings "Sheet1" wsRef1 ⟨0, 0, 0, 0⟩ 0 0 errTagCell initState).1.length = 1 :=
  ⟨by decide,
   (c4_error_tag_skips_heuristics "Sheet1" wsRef1 ⟨0, 0, 0, 0⟩ 0 0 errTagCell
     initState (by decide)).1⟩

/-- Case analysis of the proposer's `REF` branch.  With fewer than 3
parsed arguments there is never a proposal (whatever the stateful lookup
tests say), and the proposer is a total function, so it never throws.
With 3 or more arguments the rebuilt exact-match lookup over the sheet's
bounding range from A1 is returned exactly when the module-level lookup
regexes' `test` passes in their *current* state — a condition on the
mutable `lastIndex`, not on the formula text alone (see the C7 theorem for
a run where the two differ). -/
theorem refLookup_propose_cases (f : String) (rng : CellRange) (st : RState) :
    ((argsOf f).length < 3 → (proposeFixForError "REF" f rng st).1 = none) ∧
    ((lookupTest st (jsUpper f)).1 = true → 3 ≤ (argsOf f).length →
      (proposeFixForError "REF" f rng st).1 = some (rebuiltLookup f rng, refReason)) := by
  constructor
  · intro h
    by_cases hf : f = ""
    · subst hf; simp [proposeFixForError]
    · have hna : ¬ 3 ≤ (argsOf f).length := Nat.not_le.mpr h
      cases hlt : lookupTest st (jsUpper f) with
      | mk b s1 => simp [proposeFixForError, hf, hlt, proposeFixCore, hna]
  · intro hlk h3
    by_cases hf : f = ""
    · exfalso
      rw [hf] at h3
      simp [argsOf, firstParenGroup] at h3
    · cases hlt : lookupTest st (jsUpper f) with
      | mk b s1 =>
        rw [hlt] at hlk
        simp only at hlk
        subst hlk
        simp [proposeFixForError, hf, hlt, proposeFixCore, h3]

/-- `refLookup_propose_cases` applied at a concrete three-argument lookup
formula from the fresh module-load state. -/
theorem refLookup_propose_cases_example :
    (lookupTest initState (jsUpper "VLOOKUP(A1, Sheet9!A:B, 2)")).1 = true ∧
    3 ≤ (argsOf "VLOOKUP(A1, Sheet9!A:B, 2)").length ∧
    (proposeFixForError "REF" "VLOOKUP(A1, Sheet9!A:B, 2)" ⟨0, 0, 9, 2⟩ initState).1 =
      some ("=VLOOKUP(A1, A1:C10, 2, FALSE)", refReason) :=
  ⟨by decide, by decide, by
    have h := (refLookup_propose_cases "VLOOKUP(A1, Sheet9!A:B, 2)" ⟨0, 0, 9, 2⟩
      initState).2 (by decide) (by decide)
    rw [h]; decide⟩

/-- C7: the claim that a REF finding on a lookup-style formula with 3 or
more parsed arguments receives the rebuilt exact-match lookup fails on the
code.  `VLOOKUP_REGEX` is module-level, `g`-flagged and shared with the
unlocked-lookup check: on `wbStale`, scanning A1's `$`-locked lookup
formula leaves `lastIndex = 7` while emitting nothing, so the proposer's
test on A2's genuinely lookup-style (fresh-state test passes), exactly
three-argument formula resumes past the `VLOOKUP` token and fails — the
REF finding is emitted with no proposal at all. -/
theorem c7_stale_lookup_state_drops_proposal :
    3 ≤ (argsOf "VLOOKUP(A2,B:C,2)").length ∧
    (lookupTest initState (jsUpper "VLOOKUP(A2,B:C,2)")).1 = true ∧
    ((analyzeExcelFile wbStale none initState).1.filter
      (fun e => e.type = "REF")) =
      [{ row := 2, col := "A", type := "REF", value := "=VLOOKUP(A2,B:C,2)",
         proposed := none, reason := none, sheet := some "Sheet1",
         severity := some "critical" }] := by
  decide

/-- C9 (amended): a formula longer than 500 characters yields the `info`
complex-formula finding with the 100-character truncated preview in the
value field; a formula of at most 500 characters with more than five `IF(`
calls yields the `warning` nested-conditionals finding.  (When both
conditions hold, the length check wins; see the counterexample.) -/
theorem c9_complexity_thresholds (f sheetName : String) (r c : Nat) (st : RState) :
    (500 < f.length →
      (detectFormulaIssues f sheetName r c st).1 =
        some { row := r + 1, col := encode_col c, type := "COMPLEX_FORMULA",
               value := "=" ++ jsTake f 100 ++ "...", sheet := some sheetName,
               severity := some "info",
               reason := some "Fórmula muito longa e complexa. Considere dividir em células auxiliares." }) ∧
    (f.length ≤ 500 → 5 < countIF (jsUpper f) →
      (detectFormulaIssues f sheetName r c st).1 =
        some { row := r + 1, col := encode_col c, type := "NESTED_IFS",
               value := "=" ++ f, sheet := some sheetName,
               severity := some "warning",
               reason := some (toString (countIF (jsUpper f)) ++ " funções IF aninhadas detectadas. Considere usar SWITCH ou tabelas de referência.") }) := by
  constructor
  · intro h
    simp [detectFormulaIssues, h]
  · intro h1 h2
    simp [detectFormulaIssues, Nat.not_lt.mpr h1, h2]

/-- Witness for C9 (amended): both branches at concrete formulas. -/
theorem c9_complexity_thresholds_witness :
    ((detectFormulaIssues longIfFormula "S" 0 0 initState).1.map
      (fun e => (e.type, e.severity))) = some ("COMPLEX_FORMULA", some "info") ∧
    ((detectFormulaIssues sixIfFormula "S" 0 0 initState).1.map
      (fun e => (e.type, e.severity))) = some ("NESTED_IFS", some "warning") := by
  constructor
  · rw [(c9_complexity_thresholds longIfFormula "S" 0 0 initState).1 (by decide)]
    decide
  · rw [(c9_complexity_thresholds sixIfFormula "S" 0 0 initState).2 (by decide) (by decide)]
    decide

/-! #### Association-list update lemmas for the patch applier -/

lemma find_replace_ne {α : Type} (l : List (String × α)) (key s : String)
    (v : α) (h : s ≠ key) :
    (l.map (fun p => if p.1 = key then (p.1, v) else p)).find? (fun p => p.1 = s) =
      l.find? (fun p => p.1 = s) := by
  induction l with
  | nil => rfl
  | cons hd tl ih =>
    simp only [List.map_cons]
    by_cases hk : hd.1 = key
    · have hs : ¬ hd.1 = s := fun hh => h (hh.symm.trans hk)
      rw [if_pos hk, List.find?_cons_of_neg _ (by simpa using hs),
        List.find?_cons_of_neg _ (by simpa using hs), ih]
    · by_cases hs : hd.1 = s
      · rw [if_neg hk, List.find?_cons_of_pos _ (by simpa using hs),
          List.find?_cons_of_pos _ (by simpa using hs)]
      · rw [if_neg hk, List.find?_cons_of_neg _ (by simpa using hs),
          List.find?_cons_of_neg _ (by simpa using hs), ih]

lemma find_replace_self {α : Type} (l : List (String × α)) (key : String) (v : α) :
    (l.map (fun p => if p.1 = key then (p.1, v) else p)).find? (fun p => p.1 = key) =
      (l.find? (fun p => p.1 = key)).map (fun _ => (key, v)) := by
  induction l with
  | nil => rfl
  | cons hd tl ih =>
    simp only [List.map_cons]
    by_cases hk : hd.1 = key
    · rw [if_pos hk, List.find?_cons_of_pos _ (by simpa using hk),
        List.find?_cons_of_pos _ (by simpa using hk)]
      simp [hk]
    · rw [if_neg hk, List.find?_cons_of_neg _ (by simpa using hk),
        List.find?_cons_of_neg _ (by simpa using hk), ih]

lemma setSheet_sheetNames (wb : Workbook) (n : String) (ws : Sheet) :
    (wb.setSheet n ws).sheetNames = wb.sheetNames := rfl

lemma sheet_setSheet_ne (wb : Workbook) (n s : String) (ws : Sheet) (h : s ≠ n) :
    (wb.setSheet n ws).sheet? s = wb.sheet? s := by
  simp only [Workbook.setSheet, Workbook.sheet?]
  rw [find_replace_ne _ _ _ _ h]

lemma sheet_setSheet_self (wb : Workbook) (n : String) (ws : Sheet) :
    (wb.setSheet n ws).sheet? n = (wb.sheet? n).map (fun _ => ws) := by
  simp only [Workbook.setSheet, Workbook.sheet?]
  rw [find_replace_self]
  cases wb.sheets.find? (fun p => p.1 = n) <;> simp

lemma sheet_setSheet_isSome (wb : Workbook) (n s : String) (ws : Sheet) :
    ((wb.setSheet n ws).sheet? s).isSome = (wb.sheet? s).isSome := by
  by_cases h : s = n
  · subst h
    rw [sheet_setSheet_self]
    cases wb.sheet? s <;> simp
  · rw [sheet_setSheet_ne _ _ _ _ h]

lemma cell_setCell_self (ws : Sheet) (addr : String) (c : Cell) :
    (ws.setCell addr c).cell? addr = some c := by
  simp only [Sheet.setCell, Sheet.cell?]
  by_cases h : ws.cells.any (fun p => p.1 = addr)
  · rw [if_pos h]
    simp only
    rw [find_replace_self]
    have hne : (ws.cells.find? (fun p => p.1 = addr)).isSome := by
      rw [List.find?_isSome]
      simpa using List.any_eq_true.mp h
    cases hf : ws.cells.find? (fun p => p.1 = addr) with
    | none => rw [hf] at hne; simp at hne
    | some x => simp
  · rw [if_neg h]
    simp only
    rw [List.find?_append]
    have hn : ws.cells.find? (fun p => p.1 = addr) = none := by
      rw [List.find?_eq_none]
      intro x hx hpx
      exact h (List.any_eq_true.mpr ⟨x, hx, hpx⟩)
    rw [hn]
    simp [List.find?]

lemma cell_setCell_ne (ws : Sheet) (addr a : String) (c : Cell) (h : a ≠ addr) :
    (ws.setCell addr c).cell? a = ws.cell? a := by
  simp only [Sheet.setCell, Sheet.cell?]
  by_cases hb : ws.cells.any (fun p => p.1 = addr)
  · rw [if_pos hb]
    simp only
    rw [find_replace_ne _ _ _ _ h]
  · rw [if_neg hb]
    simp only
    rw [List.find?_append]
    have hsingle : [(addr, c)].find? (fun p => p.1 = a) = none := by
      simp [List.find?, Ne.symm h]
    rw [hsingle]
    cases ws.cells.find? (fun p => p.1 = a) <;> simp

/-! #### `applyStep` lemmas -/

lemma applyStep_sheetNames (wb : Workbook) (e : ErrorDetail) :
    (applyStep wb e).sheetNames = wb.sheetNames := by
  unfold applyStep
  cases e.proposed with
  | none => rfl
  | some p =>
    dsimp only
    by_cases hp : p = ""
    · rw [if_pos hp]
    · rw [if_neg hp]
      cases resolveSheetName wb e with
      | none => rfl
      | some n =>
        dsimp only
        cases wb.sheet? n with
        | none => rfl
        | some ws => rfl

lemma sheet_applyStep_isSome (wb : Workbook) (e : ErrorDetail) (s : String) :
    ((applyStep wb e).sheet? s).isSome = (wb.sheet? s).isSome := by
  unfold applyStep
  cases e.proposed with
  | none => rfl
  | some p =>
    dsimp only
    by_cases hp : p = ""
    · rw [if_pos hp]
    · rw [if_neg hp]
      cases resolveSheetName wb e with
      | none => rfl
      | some n =>
        dsimp only
        cases wb.sheet? n with
        | none => rfl
        | some ws => exact sheet_setSheet_isSome ..

lemma resolveSheetName_congr (wb wb' : Workbook) (e : ErrorDetail)
    (h : wb'.sheetNames = wb.sheetNames) :
    resolveSheetName wb' e = resolveSheetName wb e := by
  unfold resolveSheetName
  rw [h]

lemma writeTarget_congr (wb wb' : Workbook) (e : ErrorDetail)
    (hn : wb'.sheetNames = wb.sheetNames)
    (hs : ∀ s, (wb'.sheet? s).isSome = (wb.sheet? s).isSome) :
    writeTarget wb' e = writeTarget wb e := by
  unfold writeTarget
  rw [resolveSheetName_congr wb wb' e hn]
  cases e.proposed with
  | none => rfl
  | some p =>
    cases resolveSheetName wb e with
    | none => rfl
    | some s => simp [hs s]

lemma writeTarget_applyStep (wb : Workbook) (e' e : ErrorDetail) :
    writeTarget (applyStep wb e') e = writeTarget wb e :=
  writeTarget_congr wb (applyStep wb e') e (applyStep_sheetNames wb e')
    (sheet_applyStep_isSome wb e')

lemma targetOf_applyStep (wb : Workbook) (e' : ErrorDetail)
    (errors : List ErrorDetail) (i : Nat) :
    targetOf (applyStep wb e') errors i = targetOf wb errors i := by
  unfold targetOf
  cases errors[i]? with
  | none => rfl
  | some e => simp [writeTarget_applyStep]

/-- Frame property of one step: a (sheet, address) pair other than the
step's write target is untouched. -/
lemma cellAt_applyStep_ne (wb : Workbook) (e : ErrorDetail) (s a : String)
    (h : writeTarget wb e ≠ some (s, a)) :
    cellAt (applyStep wb e) s a = cellAt wb s a := by
  rcases hep : e.proposed with _ | p
  · simp only [applyStep, hep]
  · simp only [applyStep, writeTarget, hep] at h ⊢
    by_cases hp : p = ""
    · simp only [hp, if_true, if_pos]
    · simp only [hp, if_false] at h ⊢
      rcases hrs : resolveSheetName wb e with _ | n
      · simp only [hrs]
      · simp only [hrs] at h ⊢
        rcases hws : wb.sheet? n with _ | ws
        · simp only [hws]
        · simp only [hws, Option.isSome_some, if_true] at h ⊢
          by_cases hsn : s = n
          · subst hsn
            have ha : a ≠ e.col ++ toString e.row := by
              intro hh
              exact h (by rw [hh])
            unfold cellAt
            rw [sheet_setSheet_self, hws]
            cases ws.cell? (e.col ++ toString e.row) <;>
              simp [cell_setCell_ne _ _ _ _ ha]
          · unfold cellAt
            rw [sheet_setSheet_ne _ _ _ _ hsn]

/-- One step writes the stripped proposal and clears the cached value at
its write target, whether or not the cell existed. -/
lemma cellAt_applyStep_write (wb : Workbook) (e : ErrorDetail) (s a : String)
    (h : writeTarget wb e = some (s, a)) :
    (cellAt (applyStep wb e) s a).map (fun c => (c.f, c.v)) =
      some (some (stripEq (e.proposed.getD "")), none) := by
  rcases hep : e.proposed with _ | p
  · simp [writeTarget, hep] at h
  · simp only [applyStep, writeTarget, hep, Option.getD_some] at h ⊢
    by_cases hp : p = ""
    · subst hp
      simp at h
    · simp only [hp, if_false] at h ⊢
      rcases hrs : resolveSheetName wb e with _ | n
      · simp only [hrs] at h
        exact Option.noConfusion h
      · simp only [hrs] at h ⊢
        rcases hws : wb.sheet? n with _ | ws
        · simp only [hws, Option.isSome_none, Bool.false_eq_true,
            if_false] at h
          exact Option.noConfusion h
        · simp only [hws, Option.isSome_some, if_true, Option.some_inj,
            Prod.mk.injEq] at h ⊢
          obtain ⟨hn, ha⟩ := h
          subst hn
          subst ha
          unfold cellAt
          rw [sheet_setSheet_self, hws]
          cases ws.cell? (e.col ++ toString e.row) <;>
            simp [cell_setCell_self]

/-! #### `applyFixes` fold lemmas -/

lemma applyFixes_nil (errors : List ErrorDetail) (wb : Workbook) :
    applyFixes errors [] wb = some wb := rfl

lemma applyFixes_cons (errors : List ErrorDetail) (j : Nat) (tl : List Nat)
    (wb : Workbook) :
    applyFixes errors (j :: tl) wb =
      match errors[j]? with
      | none => none
      | some e => applyFixes errors tl (applyStep wb e) := by
  cases hj : errors[j]? <;>
    simp [applyFixes, List.foldlM_cons, hj, Option.bind]

lemma applyFixes_append (errors : List ErrorDetail) (l1 l2 : List Nat)
    (wb : Workbook) :
    applyFixes errors (l1 ++ l2) wb =
      (applyFixes errors l1 wb).bind (fun w => applyFixes errors l2 w) := by
  simp [applyFixes, List.foldlM_append, Option.bind]

lemma applyFixes_isSome (errors : List ErrorDetail) :
    ∀ (accepted : List Nat) (wb : Workbook),
      (∀ j ∈ accepted, j < errors.length) →
      (applyFixes errors accepted wb).isSome
  | [], _, _ => rfl
  | j :: tl, wb, hv => by
    rw [applyFixes_cons]
    cases hje : errors[j]? with
    | none =>
      have h1 : j < errors.length := hv j (by simp)
      have h2 : errors.length ≤ j := List.getElem?_eq_none_iff.mp hje
      omega
    | some e =>
      exact applyFixes_isSome errors tl (applyStep wb e)
        (fun k hk => hv k (by simp [hk]))

/-- The patch applier never changes the sheet-name list or which sheets are
present. -/
lemma applyFixes_names (errors : List ErrorDetail) :
    ∀ (accepted : List Nat) (wb wb' : Workbook),
      applyFixes errors accepted wb = some wb' →
      wb'.sheetNames = wb.sheetNames ∧
        ∀ s, (wb'.sheet? s).isSome = (wb.sheet? s).isSome
  | [], wb, wb', h => by
    rw [applyFixes_nil] at h
    cases h
    exact ⟨rfl, fun _ => rfl⟩
  | j :: tl, wb, wb', h => by
    rw [applyFixes_cons] at h
    cases hje : errors[j]? with
    | none => rw [hje] at h; exact Option.noConfusion h
    | some e =>
      rw [hje] at h
      obtain ⟨h1, h2⟩ := applyFixes_names errors tl (applyStep wb e) wb' h
      exact ⟨h1.trans (applyStep_sheetNames wb e),
        fun s => (h2 s).trans (sheet_applyStep_isSome wb e s)⟩

lemma writeTarget_applyFixes (errors : List ErrorDetail) (accepted : List Nat)
    (wb wb' : Workbook) (e : ErrorDetail)
    (h : applyFixes errors accepted wb = some wb') :
    writeTarget wb' e = writeTarget wb e :=
  writeTarget_congr wb wb' e (applyFixes_names errors accepted wb wb' h).1
    (applyFixes_names errors accepted wb wb' h).2

lemma targetOf_applyFixes (errors : List ErrorDetail) (accepted : List Nat)
    (wb wb' : Workbook) (i : Nat)
    (h : applyFixes errors accepted wb = some wb') :
    targetOf wb' errors i = targetOf wb errors i := by
  unfold targetOf
  cases errors[i]? with
  | none => rfl
  | some e => simp [writeTarget_applyFixes errors accepted wb wb' e h]

/-- Frame property of the whole patch call: a (sheet, address) pair that is
the write target of no accepted index is unchanged. -/
lemma applyFixes_frame (errors : List ErrorDetail) :
    ∀ (accepted : List Nat) (wb wb' : Workbook) (s a : String),
      applyFixes errors accepted wb = some wb' →
      (∀ i ∈ accepted, targetOf wb errors i ≠ some (s, a)) →
      cellAt wb' s a = cellAt wb s a
  | [], wb, wb', s, a, h, _ => by
    rw [applyFixes_nil] at h
    cases h
    rfl
  | j :: tl, wb, wb', s, a, h, hna => by
    rw [applyFixes_cons] at h
    cases hje : errors[j]? with
    | none => rw [hje] at h; exact Option.noConfusion h
    | some e =>
      rw [hje] at h
      have hwt : writeTarget wb e ≠ some (s, a) := by
        have h0 := hna j (by simp)
        simpa [targetOf, hje] using h0
      have hrec := applyFixes_frame errors tl (applyStep wb e) wb' s a h
        (fun i hi => by
          rw [targetOf_applyStep]
          exact hna i (by simp [hi]))
      rw [hrec, cellAt_applyStep_ne wb e s a hwt]

/-- Skipping lemma: an index whose finding names a sheet absent from the
workbook is a no-op for the whole fold. -/
lemma applyFixes_skip_missing (errors : List ErrorDetail) (i : Nat)
    (e : ErrorDetail) (s0 : String) (he : errors[i]? = some e)
    (hs : e.sheet = some s0) (hne : s0 ≠ "") :
    ∀ (accepted : List Nat) (wb : Workbook), wb.sheet? s0 = none →
      applyFixes errors accepted wb =
        applyFixes errors (accepted.filter (fun j => j ≠ i)) wb
  | [], _, _ => rfl
  | j :: tl, wb, habs => by
    by_cases hj : j = i
    · subst hj
      simp only [applyFixes_cons, he]
      have hstep : applyStep wb e = wb := by
        unfold applyStep
        rcases hep : e.proposed with _ | p
        · rfl
        · dsimp only
          by_cases hp : p = ""
          · rw [if_pos hp]
          · rw [if_neg hp]
            have hres : resolveSheetName wb e = some s0 := by
              unfold resolveSheetName
              rw [hs]
              simp [hne]
            simp only [hres, habs]
      rw [hstep]
      have hfil : (j :: tl).filter (fun k => k ≠ j) = tl.filter (fun k => k ≠ j) := by
        simp
      rw [hfil]
      exact applyFixes_skip_missing errors j e s0 he hs hne tl wb habs
    · have hfil : (j :: tl).filter (fun k => k ≠ i) =
          j :: tl.filter (fun k => k ≠ i) := by
        simp [hj]
      rw [hfil, applyFixes_cons, applyFixes_cons]
      cases hje : errors[j]? with
      | none => rfl
      | some e' =>
        have habs' : (applyStep wb e').sheet? s0 = none := by
          have h2 := sheet_applyStep_isSome wb e' s0
          rw [habs] at h2
          cases hx : (applyStep wb e').sheet? s0 with
          | none => rfl
          | some w => rw [hx] at h2; simp at h2
        exact applyFixes_skip_missing errors i e s0 he hs hne tl
          (applyStep wb e') habs'

/-- C10: the patch applier's only effect is on the write targets of the
accepted findings.  Any (sheet, address) that is not the resolved target of
an accepted index carrying a truthy proposal holds exactly the same cell
(same formula, value and type — the whole cell record) after a successful
`applyFixes` call; in particular no other cell is created or deleted. -/
theorem c10_untargeted_cells_unchanged (errors : List ErrorDetail)
    (accepted : List Nat) (wb wb' : Workbook) (s a : String)
    (h : applyFixes errors accepted wb = some wb')
    (hna : ∀ i ∈ accepted, targetOf wb errors i ≠ some (s, a)) :
    cellAt wb' s a = cellAt wb s a :=
  applyFixes_frame errors accepted wb wb' s a h hna

/-- Witness for C10 at a concrete patch call. -/
theorem c10_untargeted_cells_unchanged_witness :
    cellAt ((applyFixes [fixA] [0] wbRef1).getD wbRef1) "Sheet1" "B9" =
      cellAt wbRef1 "Sheet1" "B9" :=
  c10_untargeted_cells_unchanged [fixA] [0] wbRef1
    ((applyFixes [fixA] [0] wbRef1).getD wbRef1) "Sheet1" "B9"
    (by decide) (by decide)

/-- C8: an accepted index whose finding names a non-empty sheet name absent
from the workbook is skipped: the whole call behaves as if that index had
not been accepted, and (with in-range indices) still succeeds, applying
every other accepted finding. -/
theorem c8_missing_sheet_index_skipped (errors : List ErrorDetail)
    (accepted : List Nat) (wb : Workbook) (i : Nat) (e : ErrorDetail)
    (s0 : String) (_hi : i ∈ accepted) (he : errors[i]? = some e)
    (hs : e.sheet = some s0) (hne : s0 ≠ "") (habs : wb.sheet? s0 = none)
    (hv : ∀ j ∈ accepted, j < errors.length) :
    applyFixes errors accepted wb =
      applyFixes errors (accepted.filter (fun j => j ≠ i)) wb ∧
    (applyFixes errors accepted wb).isSome :=
  ⟨applyFixes_skip_missing errors i e s0 he hs hne accepted wb habs,
   applyFixes_isSome errors accepted wb hv⟩

/-- Witness for C8: `fixC` names the missing sheet "Nope"; the call equals
the call without index 1 and succeeds. -/
theorem c8_missing_sheet_index_skipped_witness :
    applyFixes [fixA, fixC] [0, 1] wbRef1 =
      applyFixes [fixA, fixC] ([0, 1].filter (fun j => j ≠ 1)) wbRef1 ∧
    (applyFixes [fixA, fixC] [0, 1] wbRef1).isSome :=
  c8_missing_sheet_index_skipped [fixA, fixC] [0, 1] wbRef1 1 fixC "Nope"
    (by decide) (by decide) (by decide) (by decide) (by decide) (by decide)

/-- C3 (amended): for an accepted index whose finding has a truthy proposal
and a resolvable, present target sheet, and which is the last accepted
index writing to that (sheet, address), the patched workbook holds the
proposal with one leading `=` stripped as the cell's formula and no cached
value — whether or not the cell existed before. -/
theorem c3_patch_sets_stripped_formula (errors : List ErrorDetail)
    (l1 l2 : List Nat) (i : Nat) (wb : Workbook) (e : ErrorDetail)
    (s a : String)
    (hv : ∀ j ∈ l1 ++ i :: l2, j < errors.length)
    (he : errors[i]? = some e)
    (ht : writeTarget wb e = some (s, a))
    (hlast : ∀ j ∈ l2, targetOf wb errors j ≠ some (s, a)) :
    ((applyFixes errors (l1 ++ i :: l2) wb).bind (fun w => cellAt w s a)).map
      (fun c => (c.f, c.v)) =
      some (some (stripEq (e.proposed.getD "")), none) := by
  rw [applyFixes_append]
  have h1 : (applyFixes errors l1 wb).isSome :=
    applyFixes_isSome errors l1 wb (fun j hj => hv j (by simp [hj]))
  obtain ⟨w1, hw1⟩ := Option.isSome_iff_exists.mp h1
  rw [hw1]
  simp only [Option.some_bind]
  simp only [applyFixes_cons, he]
  have ht1 : writeTarget w1 e = some (s, a) :=
    (writeTarget_applyFixes errors l1 wb w1 e hw1).trans ht
  have hwrite := cellAt_applyStep_write w1 e s a ht1
  have h2 : (applyFixes errors l2 (applyStep w1 e)).isSome :=
    applyFixes_isSome errors l2 (applyStep w1 e)
      (fun j hj => hv j (by simp [hj]))
  obtain ⟨wf, hwf⟩ := Option.isSome_iff_exists.mp h2
  rw [hwf]
  have hframe : cellAt wf s a = cellAt (applyStep w1 e) s a :=
    applyFixes_frame errors l2 (applyStep w1 e) wf s a hwf
      (fun j hj => by
        rw [targetOf_applyStep, targetOf_applyFixes errors l1 wb w1 j hw1]
        exact hlast j hj)
  simp only [Option.some_bind]
  rw [hframe]
  exact hwrite

/-- Witness for C3 (amended): the proposal `=DDD` lands as formula `DDD`
with no cached value on the newly created cell B2. -/
theorem c3_patch_sets_stripped_formula_witness :
    ((applyFixes [fixD] ([] ++ 0 :: []) wbRef1).bind
      (fun w => cellAt w "Sheet1" "B2")).map (fun c => (c.f, c.v)) =
      some (some (stripEq (fixD.proposed.getD "")), none) :=
  c3_patch_sets_stripped_formula [fixD] [] [] 0 wbRef1 fixD "Sheet1" "B2"
    (by decide) (by decide) (by decide) (by decide)

/-! #### The proposal invariant (C6) -/

lemma EDinv_of_prop_none (e : ErrorDetail) (h : e.proposed = none) : EDinv e := by
  intro hp
  rw [h] at hp
  exact absurd rfl hp

lemma str_append_ne_empty (s t : String) (h : s ≠ "") : s ++ t ≠ "" := by
  intro heq
  apply h
  have h2 := congrArg String.length heq
  rw [String.length_append] at h2
  have hs : s.length = 0 := by simp at h2; omega
  cases s with
  | mk data =>
    cases data with
    | nil => rfl
    | cons c cs => simp [String.length] at hs

lemma nameFix_reason_ne (f : String) :
    ∀ (l : List (String × String)) (pr : String × String),
      nameFix f l = some pr → pr.2 ≠ ""
  | [], pr, h => by simp [nameFix] at h
  | (w, c) :: rest, pr, h => by
    unfold nameFix at h
    split_ifs at h with hw
    · obtain rfl := Option.some_inj.mp h
      exact str_append_ne_empty _ _ (str_append_ne_empty _ _
        (str_append_ne_empty _ _ (str_append_ne_empty _ _ (by decide))))
    · exact nameFix_reason_ne f rest pr h

lemma proposeFixCore_reason_ne (etype formula : String) (rng : CellRange)
    (isLk : Bool) (pr : String × String)
    (h : proposeFixCore etype formula rng isLk = some pr) : pr.2 ≠ "" := by
  unfold proposeFixCore at h
  split_ifs at h <;> dsimp only at h <;>
    first
      | exact Option.noConfusion h
      | exact nameFix_reason_ne formula commonFixes pr h
      | (obtain rfl := Option.some_inj.mp h
         dsimp only
         decide)

lemma proposeFixForError_reason_ne (etype formula : String) (rng : CellRange)
    (st : RState) (pr : String × String) (st' : RState)
    (h : proposeFixForError etype formula rng st = (some pr, st')) :
    pr.2 ≠ "" := by
  unfold proposeFixForError at h
  split_ifs at h with hf hre
  · simp at h
  · dsimp only at h
    rcases hlt : lookupTest st (jsUpper formula) with ⟨b, s1⟩
    rw [hlt] at h
    dsimp only at h
    simp only [Prod.mk.injEq] at h
    exact proposeFixCore_reason_ne etype formula rng b pr h.1
  · dsimp only at h
    simp only [Prod.mk.injEq] at h
    exact proposeFixCore_reason_ne etype formula rng false pr h.1

lemma mkErrorFinding_inv (row col : Nat) (etype cv cf sn : String)
    (rng : CellRange) (st st' : RState) (pr : Option (String × String))
    (h : proposeFixForError etype cf rng st = (pr, st')) :
    EDinv (mkErrorFinding row col etype cv cf sn pr) := by
  cases pr with
  | none => exact EDinv_of_prop_none _ rfl
  | some p =>
    intro _
    have := proposeFixForError_reason_ne etype cf rng st p st' h
    simpa [mkErrorFinding] using this

lemma patternScan_inv :
    ∀ (ks : List ErrKind) (cv cf : String) (rng : CellRange) (sn : String)
      (row col : Nat) (st : RState) (e : ErrorDetail) (st' : RState),
      patternScan ks cv cf rng sn row col st = (some e, st') → EDinv e
  | [], cv, cf, rng, sn, row, col, st, e, st', h => by
    simp [patternScan] at h
  | k :: rest, cv, cf, rng, sn, row, col, st, e, st', h => by
    rcases hr1 : rtest k.lits cv (st.pat k) with ⟨b1, li1⟩
    simp only [patternScan, hr1] at h
    by_cases hb1 : b1 = true
    · rw [hb1] at h
      simp only [if_true] at h
      rcases hpf : proposeFixForError k.name cf rng (st.setPat k li1) with ⟨prop, st2⟩
      rw [hpf] at h
      simp only [Prod.mk.injEq, Option.some_inj] at h
      obtain ⟨he, _⟩ := h
      subst he
      exact mkErrorFinding_inv _ _ _ _ _ _ _ _ _ _ hpf
    · have hb1f : b1 = false := Bool.eq_false_iff.mpr hb1
      rw [hb1f] at h
      simp only [Bool.false_eq_true, if_false] at h
      rcases hr2 : rtest k.lits cf li1 with ⟨b2, li2⟩
      rw [hr2] at h
      by_cases hb2 : b2 = true
      · rw [hb2] at h
        simp only [if_true] at h
        rcases hpf : proposeFixForError k.name cf rng
            ((st.setPat k li1).setPat k li2) with ⟨prop, st2⟩
        rw [hpf] at h
        simp only [Prod.mk.injEq, Option.some_inj] at h
        obtain ⟨he, _⟩ := h
        subst he
        exact mkErrorFinding_inv _ _ _ _ _ _ _ _ _ _ hpf
      · have hb2f : b2 = false := Bool.eq_false_iff.mpr hb2
        rw [hb2f] at h
        simp only [Bool.false_eq_true, if_false] at h
        exact patternScan_inv rest cv cf rng sn row col _ e st' h

lemma detectFormulaIssues_inv (f sn : String) (row col : Nat) (st : RState)
    (e : ErrorDetail) (st' : RState)
    (h : (detectFormulaIssues f sn row col st) = (some e, st')) : EDinv e := by
  unfold detectFormulaIssues at h
  by_cases h1 : 500 < f.length
  · simp only [h1, if_true] at h
    simp only [Prod.mk.injEq, Option.some_inj] at h
    obtain ⟨he, _⟩ := h
    subst he
    exact EDinv_of_prop_none _ rfl
  · simp only [h1, if_false] at h
    by_cases h2 : 5 < countIF (jsUpper f)
    · simp only [h2, if_true] at h
      simp only [Prod.mk.injEq, Option.some_inj] at h
      obtain ⟨he, _⟩ := h
      subst he
      exact EDinv_of_prop_none _ rfl
    · simp only [h2, if_false] at h
      rcases hr : rtest vlookupLits (jsUpper f) st.vl with ⟨b, li⟩
      rw [hr] at h
      split_ifs at h with h3
      · simp only [Prod.mk.injEq, Option.some_inj] at h
        obtain ⟨he, _⟩ := h
        subst he
        intro _
        dsimp only
        decide
      · simp at h

lemma validateDataType_inv (cell : Cell) (row col : Nat) (sn : String)
    (ws : Sheet) (rng : CellRange) (e : ErrorDetail)
    (h : validateDataType cell row col sn ws rng = some e) : EDinv e := by
  unfold validateDataType at h
  dsimp only at h
  split_ifs at h
  · obtain rfl := Option.some_inj.mp h
    exact EDinv_of_prop_none _ rfl

lemma validateMergedCell_inv (m : CellRange) (sn : String) (ws : Sheet)
    (e : ErrorDetail) (h : validateMergedCell m sn ws = some e) : EDinv e := by
  unfold validateMergedCell at h
  dsimp only at h
  rcases hc : ws.cell? (encode_cell m.sr m.sc) with _ | cell
  · rw [hc] at h
    exact Option.noConfusion h
  · rw [hc] at h
    dsimp only at h
    split_ifs at h
    obtain rfl := Option.some_inj.mp h
    exact EDinv_of_prop_none _ rfl

lemma detectEmptyGaps_inv (ws : Sheet) (row col : Nat) (rng : CellRange)
    (sn : String) (e : ErrorDetail)
    (h : detectEmptyGaps ws row col rng sn = some e) : EDinv e := by
  unfold detectEmptyGaps at h
  dsimp only at h
  split_ifs at h
  · obtain rfl := Option.some_inj.mp h
    exact EDinv_of_prop_none _ rfl

lemma crossSheet_inv (ws : Sheet) (sn : String) (wb : Workbook)
    (rng : CellRange) :
    ∀ e ∈ validateCrossSheetReferences ws sn wb rng, EDinv e := by
  intro e he
  unfold validateCrossSheetReferences at he
  simp only [List.mem_flatMap] at he
  obtain ⟨r, _, c, _, he⟩ := he
  rcases hc : ws.cell? (encode_cell r c) with _ | cell
  · rw [hc] at he
    simp at he
  · rw [hc] at he
    dsimp only at he
    split_ifs at he
    · simp only [List.mem_flatMap] at he
      obtain ⟨m, _, he⟩ := he
      split_ifs at he
      · simp at he
      · simp only [List.mem_singleton] at he
        subst he
        intro _
        dsimp only
        exact str_append_ne_empty _ _ (str_append_ne_empty _ _ (by decide))
    · simp at he

lemma format_inv (ws : Sheet) (sn : String) (rng : CellRange) :
    ∀ e ∈ detectFormatInconsistencies ws sn rng, EDinv e := by
  intro e he
  unfold detectFormatInconsistencies at he
  simp only [List.mem_flatMap] at he
  obtain ⟨c, _, he⟩ := he
  split_ifs at he
  · simp only [List.mem_flatMap] at he
    obtain ⟨fr, _, he⟩ := he
    split_ifs at he
    · simp only [List.mem_map] at he
      obtain ⟨r, _, he⟩ := he
      subst he
      exact EDinv_of_prop_none _ rfl
    · simp at he
  · simp at he

lemma emitDups_inv (cv : CVMap) (sn : String) :
    ∀ e ∈ emitDups cv sn, EDinv e := by
  intro e he
  unfold emitDups at he
  simp only [List.mem_flatMap] at he
  obtain ⟨p, _, vr, _, he⟩ := he
  split_ifs at he
  · simp only [List.mem_map] at he
    obtain ⟨r, _, he⟩ := he
    subst he
    exact EDinv_of_prop_none _ rfl
  · simp at he

lemma cellFindings_inv (sn : String) (ws : Sheet) (rng : CellRange)
    (row col : Nat) (cell : Cell) (st : RState) :
    ∀ e ∈ (cellFindings sn ws rng row col cell st).1, EDinv e := by
  intro e he
  by_cases ht : cell.t = some 'e'
  · rcases hpf : proposeFixForError (classifyETag (jsUpper (jsToStr cell.v)))
        (cell.f.getD "") rng st with ⟨prop, st2⟩
    simp only [cellFindings, ht, if_true, hpf, List.mem_singleton] at he
    subst he
    exact mkErrorFinding_inv _ _ _ _ _ _ _ _ _ _ hpf
  · rcases hps : patternScan errKindOrder (jsToStr cell.v) (cell.f.getD "")
        rng sn row col st with ⟨patF, st1⟩
    rcases hfi : (if (cell.f.getD "") ≠ "" then
        detectFormulaIssues (cell.f.getD "") sn row col st1
      else (none, st1)) with ⟨fIss, st2⟩
    simp only [cellFindings, ht, if_false, hps, hfi, List.mem_append,
      Option.mem_toList, Option.mem_def] at he
    rcases he with ((hpat | hiss) | htyp) | hgap
    · exact patternScan_inv errKindOrder _ _ rng sn row col st e st1
        (by rw [hps, hpat])
    · by_cases hcf : (cell.f.getD "") ≠ ""
      · rw [if_pos hcf] at hfi
        exact detectFormulaIssues_inv _ sn row col st1 e st2 (by rw [hfi, hiss])
      · rw [if_neg hcf] at hfi
        obtain ⟨h1, _⟩ := Prod.mk.injEq .. ▸ hfi
        rw [← h1] at hiss
        exact Option.noConfusion hiss
    · by_cases hcv : jsToStr cell.v ≠ "" ∧ (cell.f.getD "") = ""
      · rw [if_pos hcv] at htyp
        exact validateDataType_inv cell row col sn ws rng e htyp
      · rw [if_neg hcv] at htyp
        exact Option.noConfusion htyp
    · exact detectEmptyGaps_inv ws row col rng sn e hgap

lemma scanStep_inv (sn : String) (ws : Sheet) (rng : CellRange)
    (acc : ScanAcc) (rc : Nat × Nat)
    (hacc : ∀ e ∈ acc.errs, EDinv e) :
    ∀ e ∈ (scanStep sn ws rng acc rc).errs, EDinv e := by
  intro e he
  unfold scanStep at he
  rcases hc : ws.cell? (encode_cell rc.1 rc.2) with _ | cell
  · rw [hc] at he
    exact hacc e he
  · rw [hc] at he
    dsimp only at he
    rcases hcf : cellFindings sn ws rng rc.1 rc.2 cell acc.st with ⟨fs, st2⟩
    rw [hcf] at he
    simp only [List.mem_append] at he
    rcases he with he | he
    · exact hacc e he
    · exact cellFindings_inv sn ws rng rc.1 rc.2 cell acc.st e (by rw [hcf]; exact he)

lemma scanFold_inv (sn : String) (ws : Sheet) (rng : CellRange) :
    ∀ (l : List (Nat × Nat)) (acc : ScanAcc),
      (∀ e ∈ acc.errs, EDinv e) →
      ∀ e ∈ (l.foldl (scanStep sn ws rng) acc).errs, EDinv e
  | [], acc, hacc => hacc
  | rc :: tl, acc, hacc => by
    rw [List.foldl_cons]
    exact scanFold_inv sn ws rng tl (scanStep sn ws rng acc rc)
      (scanStep_inv sn ws rng acc rc hacc)

lemma analyzeSheet_inv (wb : Workbook) (sn : String) (ws : Sheet)
    (st : RState) : ∀ e ∈ (analyzeSheet wb sn ws st).1, EDinv e := by
  intro e he
  unfold analyzeSheet at he
  simp only [List.mem_append] at he
  rcases he with (((hscan | hdup) | hmerge) | hcross) | hfmt
  · exact scanFold_inv sn ws ws.range _ ⟨[], [], st⟩ (by simp) e hscan
  · exact emitDups_inv _ sn e hdup
  · rw [List.mem_filterMap] at hmerge
    obtain ⟨m, _, hm⟩ := hmerge
    exact validateMergedCell_inv m sn ws e hm
  · exact crossSheet_inv ws sn wb ws.range e hcross
  · exact format_inv ws sn ws.range e hfmt

lemma sheetStep_inv (wb : Workbook) (acc : List ErrorDetail × RState)
    (name : String) (hacc : ∀ e ∈ acc.1, EDinv e) :
    ∀ e ∈ (sheetStep wb acc name).1, EDinv e := by
  intro e he
  unfold sheetStep at he
  rcases hws : wb.sheet? name with _ | ws
  · rw [hws] at he
    exact hacc e he
  · rw [hws] at he
    dsimp only at he
    rcases has : analyzeSheet wb name ws acc.2 with ⟨fs, st'⟩
    rw [has] at he
    simp only [List.mem_append] at he
    rcases he with he | he
    · exact hacc e he
    · exact analyzeSheet_inv wb name ws acc.2 e (by rw [has]; exact he)

lemma sheetFold_inv (wb : Workbook) :
    ∀ (names : List String) (acc : List ErrorDetail × RState),
      (∀ e ∈ acc.1, EDinv e) →
      ∀ e ∈ (names.foldl (sheetStep wb) acc).1, EDinv e
  | [], acc, hacc => hacc
  | n :: tl, acc, hacc => by
    rw [List.foldl_cons]
    exact sheetFold_inv wb tl (sheetStep wb acc n) (sheetStep_inv wb acc n hacc)

/-- C6: every finding produced by `analyzeExcelFile` with a present,
non-empty `proposed` field also has a present, non-empty `reason` field
(covering the fix proposer, the cross-sheet-reference detector and the
unlocked-lookup detector, the only sources of proposals). -/
theorem c6_proposal_invariant (wb : Workbook) (sel : Option (List String))
    (st : RState) :
    ∀ e ∈ (analyzeExcelFile wb sel st).1,
      e.proposed.getD "" ≠ "" → e.reason.getD "" ≠ "" := by
  intro e he
  unfold analyzeExcelFile at he
  exact sheetFold_inv wb _ ([], st) (by simp) e he

/-- Witness for C6: the `#VALUE!` finding of `wbVal` carries the IFERROR
proposal, and the theorem yields its non-empty reason. -/
theorem c6_proposal_invariant_witness :
    ({ row := 1, col := "A", type := "VALUE", value := "=A1+B1",
       proposed := some "=IFERROR(A1+B1, 0)",
       reason := some "Encapsulado com IFERROR para tratar o erro #VALUE! e retornar 0 em caso de falha.",
       sheet := some "Sheet1", severity := some "warning" } :
      ErrorDetail).reason.getD "" ≠ "" :=
  c6_proposal_invariant wbVal none initState _ (by decide) (by decide)

end ExcelCleaner
